import Mathlib

/-!
Shallow embedding of the chat-history service of the gemini-ai-telegram-bot
repository (src/src/chat_service.py, src/src/entities/chat_session.py,
src/src/entities/chat_message.py, src/src/config.py), together with proofs
about its operations.

The database state is modelled as two lists of rows (sessions and messages);
the SQL queries issued by the service are modelled by list operations with the
same semantics: `select ... where` is `filter`, `order_by(date.desc())` is a
sort by the descending-date relation, `limit` is `take`, `delete ... where`
is `filter` by the negated predicate, and `scalar_one_or_none` errors when
more than one row matches. Python integers and datetimes are modelled as
`Int`; the returned Gemini-API message dicts are modelled by a small JSON
value type so that claims about their exact shape can be stated.
-/

/-- Row of the `chat_session` table (src/src/entities/chat_session.py):
system-generated primary key `id` and the caller-supplied external
`chat_id`, which carries a uniqueness constraint. -/
structure ChatSession where
  id : Int
  chat_id : Int
deriving Repr, DecidableEq

/-- Row of the `chat_message` table (src/src/entities/chat_message.py):
primary key `id`, foreign key `chat_id` referencing `chat_session.id`,
free text, timestamp-valued `date` and the sender `role` string. -/
structure ChatMessage where
  id : Int
  chat_id : Int
  text : String
  date : Int
  role : String
deriving Repr, DecidableEq

/-- Database state: the two tables the service touches. -/
structure DB where
  sessions : List ChatSession
  messages : List ChatMessage
deriving Repr, DecidableEq

/-- JSON-like values, used to model the Python dicts returned by
`get_chat_history` so that claims about their exact key shape are statable. -/
inductive Json where
  | str : String → Json
  | arr : List Json → Json
  | obj : List (String × Json) → Json

/-- The key list of a JSON object (empty for non-objects). -/
def Json.keys : Json → List String
  | .obj kvs => kvs.map Prod.fst
  | _ => []

/-- Modelled from the spec: the process-wide configuration consumed by the
service.  `Config.MAX_HISTORY_MESSAGES` is read by `ChatService.__init__`
and asserted by the repository's tests, but the attribute itself is absent
from src/src/config.py, so the one integer setting "the default history
window size (`MAX_HISTORY_MESSAGES`)" is modelled as a field here. -/
structure Config where
  MAX_HISTORY_MESSAGES : Int

/-- The service instance state: the sole field set by `ChatService.__init__`. -/
structure ChatService where
  max_history_messages : Int
deriving Repr, DecidableEq

/-- `ChatService.__init__` (src/src/chat_service.py line 25):
`self._max_history_messages = max_history_messages or Config.MAX_HISTORY_MESSAGES`.
Python's `or` takes the configured value whenever the argument is falsy,
i.e. both when it is `None` and when it is `0`. -/
def ChatService.init (cfg : Config) (max_history_messages : Option Int) : ChatService :=
  match max_history_messages with
  | none => ⟨cfg.MAX_HISTORY_MESSAGES⟩
  | some v => if v = 0 then ⟨cfg.MAX_HISTORY_MESSAGES⟩ else ⟨v⟩

/-- The `ORDER BY date DESC` relation: `a` sorts before `b` when `a` is at
least as recent. SQL leaves the order of ties unspecified; the model fixes
one deterministic sort consistent with the query. -/
def moreRecent (a b : ChatMessage) : Prop := b.date ≤ a.date

instance : DecidableRel moreRecent := fun a b =>
  inferInstanceAs (Decidable (b.date ≤ a.date))

instance : IsTotal ChatMessage moreRecent :=
  ⟨fun a b => le_total b.date a.date⟩

instance : IsTrans ChatMessage moreRecent :=
  ⟨fun _ _ _ hab hbc => le_trans hbc hab⟩

/-- The row selection of `get_chat_history` (src/src/chat_service.py lines
46-56): messages of the session ordered by date descending, limited to
`lim`, then reversed to chronological order. -/
def selectRecent (db : DB) (session_id : Int) (lim : Nat) : List ChatMessage :=
  (((db.messages.filter (fun m => m.chat_id == session_id)).insertionSort
      moreRecent).take lim).reverse

/-- The per-message formatting of `get_chat_history` (lines 57-60):
`{"role": message.role, "parts": [{"text": message.text}]}`. -/
def formatMessage (m : ChatMessage) : Json :=
  .obj [("role", .str m.role), ("parts", .arr [.obj [("text", .str m.text)]])]

/-- `ChatService.get_chat_history` (src/src/chat_service.py lines 27-62).
A `None` limit defaults to the instance limit; a negative limit raises
`ValueError` before the query, modelled as `Except.error`. -/
def get_chat_history (svc : ChatService) (db : DB) (session_id : Int)
    (limit : Option Int) : Except String (List Json) :=
  if (limit.getD svc.max_history_messages) < 0 then
    .error "limit must be non-negative"
  else
    .ok ((selectRecent db session_id
      (limit.getD svc.max_history_messages).toNat).map formatMessage)

/-- Fresh primary key for an inserted message row (autoincrement model). -/
def nextMessageId (db : DB) : Int :=
  (db.messages.foldl (fun acc m => max acc m.id) 0) + 1

/-- Fresh primary key for an inserted session row (autoincrement model). -/
def nextSessionId (db : DB) : Int :=
  (db.sessions.foldl (fun acc s => max acc s.id) 0) + 1

/-- `ChatService.add_message` (src/src/chat_service.py lines 64-87): build a
`ChatMessage` row from the arguments, insert it and commit. The source
performs no session-existence lookup and no role validation, and the
declared foreign key is not enforced in the repository's SQLite
configuration, so the operation cannot fail in the model. -/
def add_message (db : DB) (session_id : Int) (text : String) (date : Int)
    (role : String) : ChatMessage × DB :=
  let msg : ChatMessage :=
    { id := nextMessageId db, chat_id := session_id,
      text := text, date := date, role := role }
  (msg, { db with messages := db.messages ++ [msg] })

/-- `ChatService.clear_chat_history` (src/src/chat_service.py lines 89-104):
`DELETE FROM chat_message WHERE chat_id = session_id`, returning the
driver-reported deleted row count. -/
def clear_chat_history (db : DB) (session_id : Int) : Nat × DB :=
  ((db.messages.filter (fun m => m.chat_id == session_id)).length,
   { db with messages := db.messages.filter (fun m => !(m.chat_id == session_id)) })

/-- SQLAlchemy's `scalar_one_or_none`: `none` for an empty result, the row
for a singleton result, an error when several rows match. -/
def scalar_one_or_none {α : Type} : List α → Except String (Option α)
  | [] => .ok none
  | [x] => .ok (some x)
  | _ => .error "Multiple rows were found when one or none was required"

/-- `ChatService.get_or_create_session` (src/src/chat_service.py lines
106-128): look the session up by external `chat_id`; when absent, insert a
new row and return it, otherwise return the existing row. -/
def get_or_create_session (db : DB) (chat_id : Int) :
    Except String (ChatSession × DB) :=
  match scalar_one_or_none (db.sessions.filter (fun s => s.chat_id == chat_id)) with
  | .error e => .error e
  | .ok (some s) => .ok (s, db)
  | .ok none =>
      let s : ChatSession := { id := nextSessionId db, chat_id := chat_id }
      .ok (s, { db with sessions := db.sessions ++ [s] })

/-! ## Fixtures: concrete databases and service instances used by witnesses -/

/-- A concrete configuration with default window 10. -/
def exCfg : Config := ⟨10⟩

/-- A service built with no construction-time override. -/
def exSvc : ChatService := ChatService.init exCfg none

/-- A database with one session (internal id 1, external id 100) holding two
messages. -/
def exDB : DB :=
  { sessions := [⟨1, 100⟩],
    messages := [⟨1, 1, "hello", 5, "user"⟩, ⟨2, 1, "hi there", 7, "model"⟩] }

/-- A database with one session and no messages. -/
def exEmptyDB : DB := { sessions := [⟨1, 100⟩], messages := [] }

/-! ## Helper lemmas about the row selection -/

theorem length_selectRecent (db : DB) (sid : Int) (lim : Nat) :
    (selectRecent db sid lim).length =
      min (db.messages.filter (fun m => m.chat_id == sid)).length lim := by
  unfold selectRecent
  rw [List.length_reverse, List.length_take,
    (List.perm_insertionSort moreRecent _).length_eq, Nat.min_comm]

theorem pairwise_selectRecent (db : DB) (sid : Int) (lim : Nat) :
    List.Pairwise (fun a b : ChatMessage => a.date ≤ b.date)
      (selectRecent db sid lim) := by
  unfold selectRecent
  rw [List.pairwise_reverse]
  exact List.Pairwise.sublist (List.take_sublist _ _)
    (List.sorted_insertionSort moreRecent _)

theorem mem_selectRecent_of_le (db : DB) (sid : Int) (lim : Nat)
    (hlen : (db.messages.filter (fun m => m.chat_id == sid)).length ≤ lim)
    (m : ChatMessage) (hm : m ∈ db.messages.filter (fun m => m.chat_id == sid)) :
    m ∈ selectRecent db sid lim := by
  unfold selectRecent
  have hlen' : (List.insertionSort moreRecent
      (db.messages.filter (fun m => m.chat_id == sid))).length ≤ lim := by
    rw [(List.perm_insertionSort moreRecent _).length_eq]; exact hlen
  rw [List.mem_reverse, List.take_of_length_le hlen']
  exact ((List.perm_insertionSort moreRecent _).mem_iff).mpr hm

/-- C1: for every session with N stored messages and requested limit L ≥ 0,
get_chat_history returns exactly min(N, L) entries, the formatted images of
the selected rows in non-decreasing timestamp order; L = 0 and an empty
session both yield the empty sequence. -/
theorem get_chat_history_length_and_order
    (svc : ChatService) (db : DB) (sid : Int) (L : Int) (hL : 0 ≤ L) :
    ∃ h : List Json,
      get_chat_history svc db sid (some L) = .ok h ∧
      h.length = min (db.messages.filter (fun m => m.chat_id == sid)).length L.toNat ∧
      List.Pairwise (fun a b : ChatMessage => a.date ≤ b.date)
        (selectRecent db sid L.toNat) ∧
      h = (selectRecent db sid L.toNat).map formatMessage ∧
      (L = 0 → h = []) ∧
      (db.messages.filter (fun m => m.chat_id == sid) = [] → h = []) := by
  refine ⟨(selectRecent db sid L.toNat).map formatMessage, ?_, ?_,
    pairwise_selectRecent db sid L.toNat, rfl, ?_, ?_⟩
  · simp only [get_chat_history, Option.getD_some]
    rw [if_neg (not_lt.mpr hL)]
  · rw [List.length_map]; exact length_selectRecent db sid L.toNat
  · intro h0; subst h0; rfl
  · intro hnil; unfold selectRecent; rw [hnil]; simp

/-- Witness for C1 at a concrete input: the session of exDB holds 2 messages
and a limit of 2 returns both, oldest first. -/
theorem get_chat_history_length_and_order_witness :
    ∃ h : List Json,
      get_chat_history exSvc exDB 1 (some 2) = .ok h ∧ h.length = 2 := by
  obtain ⟨h, hok, hlen, -, -, -, -⟩ :=
    get_chat_history_length_and_order exSvc exDB 1 2 (by decide)
  exact ⟨h, hok, hlen.trans (by decide)⟩

/-- C2 (amended): every entry returned by get_chat_history is the Gemini-API
object carrying the message's role and its text content, with keys `role`
and `parts` — the `parts` value a one-element array holding `{text}` — not
a flat `{role, content}` pair. -/
theorem get_chat_history_entry_shape
    (svc : ChatService) (db : DB) (sid : Int) (limit : Option Int)
    (h : List Json) (hok : get_chat_history svc db sid limit = .ok h) :
    ∀ e ∈ h, (∃ role text : String,
        e = Json.obj [("role", .str role),
          ("parts", .arr [.obj [("text", .str text)]])]) ∧
      e.keys = ["role", "parts"] := by
  intro e he
  unfold get_chat_history at hok
  split at hok
  · cases hok
  · injection hok with hok
    subst hok
    obtain ⟨m, _, rfl⟩ := List.mem_map.mp he
    exact ⟨⟨m.role, m.text, rfl⟩, rfl⟩

/-- Witness for C2 at a concrete input: the first entry of exDB's history. -/
theorem get_chat_history_entry_shape_witness :
    (∃ role text : String,
        formatMessage ⟨1, 1, "hello", 5, "user"⟩ =
          Json.obj [("role", .str role),
            ("parts", .arr [.obj [("text", .str text)]])]) ∧
      (formatMessage ⟨1, 1, "hello", 5, "user"⟩).keys = ["role", "parts"] :=
  get_chat_history_entry_shape exSvc exDB 1 (some 10)
    [formatMessage ⟨1, 1, "hello", 5, "user"⟩,
     formatMessage ⟨2, 1, "hi there", 7, "model"⟩] rfl
    (formatMessage ⟨1, 1, "hello", 5, "user"⟩) (List.mem_cons_self _ _)

/-- C2 counterexample: on a concrete database the returned entries carry the
keys `role` and `parts`, not the keys `role` and `content` the claim
states. -/
theorem get_chat_history_entry_shape_cex :
    get_chat_history exSvc exDB 1 (some 10) =
      .ok [formatMessage ⟨1, 1, "hello", 5, "user"⟩,
           formatMessage ⟨2, 1, "hi there", 7, "model"⟩] ∧
    (formatMessage ⟨1, 1, "hello", 5, "user"⟩).keys = ["role", "parts"] ∧
    (formatMessage ⟨2, 1, "hi there", 7, "model"⟩).keys = ["role", "parts"] ∧
    (["role", "parts"] : List String) ≠ ["role", "content"] :=
  ⟨rfl, rfl, rfl, by decide⟩

/-- C3 (amended): a message appended with role r and content c appears in a
subsequent get_chat_history call on the same session, given sufficient
limit, as the Gemini-API entry `{role: r, parts: [{text: c}]}` with r and c
verbatim. -/
theorem add_message_roundtrip
    (svc : ChatService) (db : DB) (sid : Int) (text : String) (date : Int)
    (role : String) (L : Int)
    (hL : (((add_message db sid text date role).2.messages.filter
        (fun m => m.chat_id == sid)).length : Int) ≤ L) :
    ∃ h, get_chat_history svc (add_message db sid text date role).2 sid
        (some L) = .ok h ∧
      Json.obj [("role", .str role),
        ("parts", .arr [.obj [("text", .str text)]])] ∈ h := by
  have hmem : (add_message db sid text date role).1 ∈
      (add_message db sid text date role).2.messages.filter
        (fun m => m.chat_id == sid) := by
    rw [List.mem_filter]
    refine ⟨List.mem_append_right _ (List.mem_singleton_self _), ?_⟩
    exact beq_self_eq_true sid
  have hpos : 0 < ((add_message db sid text date role).2.messages.filter
      (fun m => m.chat_id == sid)).length :=
    List.length_pos.mpr (List.ne_nil_of_mem hmem)
  have hL0 : 0 ≤ L := le_trans (by exact_mod_cast Nat.zero_le _) hL
  have hlen : ((add_message db sid text date role).2.messages.filter
      (fun m => m.chat_id == sid)).length ≤ L.toNat := by omega
  refine ⟨(selectRecent (add_message db sid text date role).2 sid
      L.toNat).map formatMessage, ?_, ?_⟩
  · simp only [get_chat_history, Option.getD_some]
    rw [if_neg (not_lt.mpr hL0)]
  · exact List.mem_map_of_mem formatMessage
      (mem_selectRecent_of_le _ sid L.toNat hlen _ hmem)

/-- Witness for C3 at a concrete input: append "hi" as role "user" to the
empty session and read it back with limit 10. -/
theorem add_message_roundtrip_witness :
    ∃ h, get_chat_history exSvc (add_message exEmptyDB 1 "hi" 3 "user").2 1
        (some 10) = .ok h ∧
      Json.obj [("role", .str "user"),
        ("parts", .arr [.obj [("text", .str "hi")]])] ∈ h :=
  add_message_roundtrip exSvc exEmptyDB 1 "hi" 3 "user" 10 (by decide)

/-- C3 counterexample: after appending ("user", "hi") the history is exactly
one entry, and that entry's keys are `role` and `parts`, so the message does
not appear as a flat `{role, content}` pair as the claim states. -/
theorem add_message_roundtrip_cex :
    get_chat_history exSvc (add_message exEmptyDB 1 "hi" 3 "user").2 1
        (some 10) = .ok [formatMessage ⟨1, 1, "hi", 3, "user"⟩] ∧
    (formatMessage ⟨1, 1, "hi", 3, "user"⟩).keys ≠ ["role", "content"] :=
  ⟨rfl, by decide⟩

/-- C4: get_or_create_session is idempotent — under the schema's uniqueness
invariant on the external chat id, two successive calls with the same
external id both succeed and return sessions with equal internal ids, the
second call creating nothing. -/
theorem get_or_create_session_idempotent (db : DB) (cid : Int)
    (huniq : (db.sessions.filter (fun s => s.chat_id == cid)).length ≤ 1) :
    ∃ s1 db1 s2 db2,
      get_or_create_session db cid = .ok (s1, db1) ∧
      get_or_create_session db1 cid = .ok (s2, db2) ∧
      s2.id = s1.id ∧ s2 = s1 ∧ db2 = db1 := by
  cases hfl : db.sessions.filter (fun s => s.chat_id == cid) with
  | nil =>
    refine ⟨⟨nextSessionId db, cid⟩,
      { db with sessions := db.sessions ++ [⟨nextSessionId db, cid⟩] },
      ⟨nextSessionId db, cid⟩,
      { db with sessions := db.sessions ++ [⟨nextSessionId db, cid⟩] },
      ?_, ?_, rfl, rfl, rfl⟩
    · simp [get_or_create_session, hfl, scalar_one_or_none]
    · simp [get_or_create_session, List.filter_append, hfl, scalar_one_or_none]
  | cons x xs =>
    cases xs with
    | nil =>
      refine ⟨x, db, x, db, ?_, ?_, rfl, rfl, rfl⟩ <;>
        simp [get_or_create_session, hfl, scalar_one_or_none]
    | cons y tl =>
      rw [hfl] at huniq
      simp at huniq

/-- Witness for C4 at a concrete input: external chat id 200 is absent from
exEmptyDB, so the first call creates the session and the second returns it
with the same internal id. -/
theorem get_or_create_session_idempotent_witness :
    ∃ s1 db1 s2 db2,
      get_or_create_session exEmptyDB 200 = .ok (s1, db1) ∧
      get_or_create_session db1 200 = .ok (s2, db2) ∧
      s2.id = s1.id ∧ s2 = s1 ∧ db2 = db1 :=
  get_or_create_session_idempotent exEmptyDB 200 (by decide)

/-- C5: clear_chat_history returns the count of the session's messages,
removes all and only the messages owned by the session, keeps every session
row, and an immediately repeated call returns 0. -/
theorem clear_chat_history_correct (db : DB) (sid : Int) :
    (clear_chat_history db sid).1 =
      (db.messages.filter (fun m => m.chat_id == sid)).length ∧
    (∀ m ∈ (clear_chat_history db sid).2.messages,
      m ∈ db.messages ∧ ¬ m.chat_id = sid) ∧
    (∀ m ∈ db.messages, ¬ m.chat_id = sid →
      m ∈ (clear_chat_history db sid).2.messages) ∧
    (clear_chat_history db sid).2.sessions = db.sessions ∧
    (clear_chat_history (clear_chat_history db sid).2 sid).1 = 0 := by
  refine ⟨rfl, ?_, ?_, rfl, ?_⟩
  · intro m hm
    simp only [clear_chat_history, List.mem_filter, Bool.not_eq_eq_eq_not,
      Bool.not_true, beq_eq_false_iff_ne, ne_eq] at hm
    exact hm
  · intro m hm hne
    simp only [clear_chat_history, List.mem_filter, Bool.not_eq_eq_eq_not,
      Bool.not_true, beq_eq_false_iff_ne, ne_eq]
    exact ⟨hm, hne⟩
  · simp only [clear_chat_history, List.filter_filter, List.length_eq_zero,
      List.filter_eq_nil_iff]
    intro m hm
    simp

/-- C6: for every negative limit, get_chat_history fails with ValueError
before any storage access — the outcome is the same error for every stored
state, so no state is read or changed. -/
theorem get_chat_history_negative_limit (svc : ChatService) (db : DB)
    (sid : Int) (L : Int) (hL : L < 0) :
    get_chat_history svc db sid (some L) =
      .error "limit must be non-negative" ∧
    ∀ db' : DB, ∀ sid' : Int,
      get_chat_history svc db' sid' (some L) =
        .error "limit must be non-negative" := by
  refine ⟨?_, fun db' sid' => ?_⟩ <;>
    · simp only [get_chat_history, Option.getD_some]
      rw [if_pos hL]

/-- Witness for C6 at a concrete input: limit -1 on exDB. -/
theorem get_chat_history_negative_limit_witness :
    get_chat_history exSvc exDB 1 (some (-1)) =
      .error "limit must be non-negative" ∧
    ∀ db' : DB, ∀ sid' : Int,
      get_chat_history exSvc db' sid' (some (-1)) =
        .error "limit must be non-negative" :=
  get_chat_history_negative_limit exSvc exDB 1 (-1) (by decide)

/-- C7 counterexample: with an empty database holding no session at all,
add_message for session id 42 succeeds and inserts the message row instead
of failing with a NotFound condition. -/
theorem add_message_no_notfound_cex :
    (DB.mk [] []).sessions = [] ∧
    (add_message (DB.mk [] []) 42 "hello" 0 "user").1 =
      ⟨1, 42, "hello", 0, "user"⟩ ∧
    (add_message (DB.mk [] []) 42 "hello" 0 "user").2.messages =
      [⟨1, 42, "hello", 0, "user"⟩] :=
  ⟨rfl, rfl, rfl⟩

/-- C7 (amended): add_message performs no session-existence check — even when
no session row has internal id equal to the given session id, the call
succeeds, the message row is silently inserted with that session reference,
and no session is created implicitly. -/
theorem add_message_no_session_check (db : DB) (sid : Int) (text : String)
    (date : Int) (role : String)
    (hno : ∀ s ∈ db.sessions, ¬ s.id = sid) :
    (add_message db sid text date role).2.sessions = db.sessions ∧
    (add_message db sid text date role).1.chat_id = sid ∧
    (add_message db sid text date role).1 ∈
      (add_message db sid text date role).2.messages := by
  exact ⟨rfl, rfl, List.mem_append_right _ (List.mem_singleton_self _)⟩

/-- Witness for C7 at a concrete input: the sessionless empty database. -/
theorem add_message_no_session_check_witness :
    (add_message (DB.mk [] []) 42 "hello" 0 "user").2.sessions =
      (DB.mk [] []).sessions ∧
    (add_message (DB.mk [] []) 42 "hello" 0 "user").1.chat_id = 42 ∧
    (add_message (DB.mk [] []) 42 "hello" 0 "user").1 ∈
      (add_message (DB.mk [] []) 42 "hello" 0 "user").2.messages :=
  add_message_no_session_check (DB.mk [] []) 42 "hello" 0 "user"
    (by intro s hs; cases hs)

/-- C8 counterexample: the role "system", which is neither "user" nor
"model", is accepted and persisted verbatim rather than rejected. -/
theorem add_message_role_unchecked_cex :
    ("system" ≠ "user" ∧ "system" ≠ "model") ∧
    (add_message exEmptyDB 1 "oops" 0 "system").1.role = "system" ∧
    (add_message exEmptyDB 1 "oops" 0 "system").2.messages =
      [⟨1, 1, "oops", 0, "system"⟩] :=
  ⟨⟨by decide, by decide⟩, rfl, rfl⟩

/-- C8 (amended): add_message applies no role guard at the boundary — every
role string, including values other than "user" and "model", is accepted and
the message is persisted with that role verbatim. -/
theorem add_message_role_passthrough (db : DB) (sid : Int) (text : String)
    (date : Int) (role : String)
    (hrole : role ≠ "user" ∧ role ≠ "model") :
    (add_message db sid text date role).1.role = role ∧
    (add_message db sid text date role).1 ∈
      (add_message db sid text date role).2.messages :=
  ⟨rfl, List.mem_append_right _ (List.mem_singleton_self _)⟩

/-- Witness for C8 at a concrete input: role "assistant". -/
theorem add_message_role_passthrough_witness :
    (add_message exEmptyDB 1 "oops" 0 "assistant").1.role = "assistant" ∧
    (add_message exEmptyDB 1 "oops" 0 "assistant").1 ∈
      (add_message exEmptyDB 1 "oops" 0 "assistant").2.messages :=
  add_message_role_passthrough exEmptyDB 1 "oops" 0 "assistant"
    ⟨by decide, by decide⟩

/-- C9: the configured default window is read at construction, and
get_chat_history uses a supplied per-call limit — independently of the
instance — falling back to the construction-time default when none is
supplied. -/
theorem config_default_and_override (cfg : Config) (db : DB) (sid : Int)
    (L : Int) :
    (ChatService.init cfg none).max_history_messages =
      cfg.MAX_HISTORY_MESSAGES ∧
    (∀ svc : ChatService, get_chat_history svc db sid none =
      get_chat_history svc db sid (some svc.max_history_messages)) ∧
    (∀ svc svc' : ChatService, get_chat_history svc db sid (some L) =
      get_chat_history svc' db sid (some L)) :=
  ⟨rfl, fun _ => rfl, fun _ _ => rfl⟩

/-- C10: the constructor's falsy check sends an explicit 0 to the configured
default, so a zero default window is not configurable at construction; a
zero window is reachable only through the per-call limit, which yields an
empty history. -/
theorem init_zero_falsy (cfg : Config) :
    ChatService.init cfg (some 0) = ChatService.init cfg none ∧
    (ChatService.init cfg (some 0)).max_history_messages =
      cfg.MAX_HISTORY_MESSAGES ∧
    (∀ svc : ChatService, ∀ db : DB, ∀ sid : Int,
      get_chat_history svc db sid (some 0) = .ok []) := by
  refine ⟨rfl, rfl, fun svc db sid => ?_⟩
  simp [get_chat_history, selectRecent]
